import Mathlib

/-!
# Verification of the vote_it VoteEngine core

A shallow embedding of `src/durable-objects/VoteEngine.ts` (the per-poll
vote-counting Durable Object) together with the request-building code of its
callers (`src/handlers/votes.ts` and the poll-creation handler).

JavaScript `Map` is modelled as an insertion-ordered association list
(`mapSet` updates in place or appends), `Set` as an insertion-ordered
duplicate-free list (`setAdd`), and SQL `UPDATE ... WHERE id = ?` as
`tblSet` (updates existing rows only, never inserts).  Fallible external
effects (the private-storage `put`, the two D1 writes of the flush, the
audit-log insert) are modelled by explicit boolean outcome parameters; a
`put` failure propagates as `Except.error` exactly as the thrown exception
propagates out of `handleVote`/`handleInit` in the source, while flush and
audit failures are caught and swallowed as in the source `try`/`catch`.
-/

deriving instance DecidableEq for Except

/-- Value stored for one option in the actor's in-memory `Map`
(`{ text, voteCount }` in `VoteEngine.ts`). -/
structure OptionData where
  text : String
  voteCount : Nat
deriving Repr, DecidableEq

/-- `VoteState` of `VoteEngine.ts` (lines 11-18). -/
structure VoteState where
  pollId : String
  options : List (String × OptionData)
  totalVotes : Nat
  voters : List String
  initialized : Bool
  dirty : Bool
deriving Repr, DecidableEq

/-- The `{id, text, vote_count}` option shape used in requests and
responses. -/
structure InitOption where
  id : String
  text : String
  vote_count : Nat
deriving Repr, DecidableEq

/-- `VoteRequest` of `VoteEngine.ts` (lines 20-31); absent JSON fields are
`none`. -/
structure VoteRequest where
  action : String
  pollId : Option String
  optionId : Option String
  ipAddress : Option String
  fingerprint : Option String
  userId : Option String
  options : Option (List InitOption)
  totalVotes : Option Nat
  existingVoters : Option (List String)
deriving Repr, DecidableEq

/-- Payload of a `VoteResponse` (`data` field, lines 36-41). -/
structure RespData where
  optionVoteCount : Option Nat
  totalVotes : Option Nat
  options : Option (List InitOption)
  alreadyVoted : Option Bool
deriving Repr, DecidableEq

/-- `VoteResponse` of `VoteEngine.ts` (lines 33-42). -/
structure VoteResponse where
  success : Bool
  error : Option String
  data : Option RespData
deriving Repr, DecidableEq

/-- The value persisted under the `voteState` key of the actor's private
durable storage (`saveToStorage`, lines 95-104; `dirty` is not persisted). -/
structure StoredState where
  pollId : String
  options : List (String × OptionData)
  totalVotes : Nat
  voters : List String
  initialized : Bool
deriving Repr, DecidableEq

/-- One row of the D1 `votes` audit table as written by `handleVote`
(lines 277-289).  The generated UUID and timestamp are runtime
nondeterminism and carry no information used by the program, so they are
omitted from the model. -/
structure VoteRow where
  poll_id : String
  option_id : String
  user_id : Option String
  ip_address : String
  fingerprint : String
deriving Repr, DecidableEq

/-- The slice of the D1 Backing Store the actor writes:
`polls.total_votes` keyed by poll id, `options.vote_count` keyed by option
id, and the append-only `votes` audit log. -/
structure D1State where
  pollTotals : List (String × Nat)
  optionCounts : List (String × Nat)
  votes : List VoteRow
deriving Repr, DecidableEq

/-- Whole-actor state: the in-memory `voteState`, the in-memory `syncAlarm`
flag, whether a platform alarm is currently pending, and the contents of
the private durable storage (`none` = never written). -/
structure Actor where
  voteState : VoteState
  syncAlarm : Bool
  alarmScheduled : Bool
  storage : Option StoredState
deriving Repr, DecidableEq

/-- JavaScript `Map.prototype.set`: replace in place if the key exists,
otherwise append. -/
def mapSet {α : Type} (k : String) (v : α) : List (String × α) → List (String × α)
  | [] => [(k, v)]
  | (k1, v1) :: rest => if k1 == k then (k, v) :: rest else (k1, v1) :: mapSet k v rest

/-- Lookup by key (JS `Map.prototype.get` / SQL point `SELECT`). -/
def tget {α : Type} (k : String) : List (String × α) → Option α
  | [] => none
  | (k1, v) :: rest => if k1 == k then some v else tget k rest

/-- SQL `UPDATE t SET v = ? WHERE id = ?`: rewrites existing rows with the
key, inserts nothing. -/
def tblSet {α : Type} (k : String) (v : α) : List (String × α) → List (String × α)
  | [] => []
  | (k1, v1) :: rest =>
    if k1 == k then (k, v) :: tblSet k v rest else (k1, v1) :: tblSet k v rest

/-- JavaScript `Set.prototype.add`. -/
def setAdd (x : String) (s : List String) : List String :=
  if s.contains x then s else s ++ [x]

/-- JavaScript truthiness of an optional string field: absent and `""` are
falsy. -/
def strTruthy : Option String → Bool
  | none => false
  | some s => !(s == "")

/-- A request with the given `action` and every other JSON field absent. -/
def emptyReq (action : String) : VoteRequest :=
  ⟨action, none, none, none, none, none, none, none, none⟩

/-- Serialization performed by `saveToStorage` (lines 95-104). -/
def VoteState.serialize (s : VoteState) : StoredState :=
  ⟨s.pollId, s.options, s.totalVotes, s.voters, s.initialized⟩

/-- Sum of the per-option counters of the in-memory map. -/
def sumCounts (m : List (String × OptionData)) : Nat :=
  (m.map fun kv => kv.2.voteCount).sum

/-- `handleInit` (lines 199-230).  `putOk` is the outcome of the
`saveToStorage` put; when it fails the thrown error escapes the handler
(`Except.error`) with the in-memory mutations already applied and the
durable storage untouched. -/
def handleInit (putOk : Bool) (a : Actor) (body : VoteRequest) :
    Actor × Except String VoteResponse :=
  if a.voteState.initialized then
    (a, .ok ⟨true, none, some ⟨none, some a.voteState.totalVotes, none, none⟩⟩)
  else if !(strTruthy body.pollId) then
    (a, .ok ⟨false, some "pollId is required for initialization", none⟩)
  else
    let s1 : VoteState :=
      { a.voteState with
          pollId := body.pollId.getD ""
          totalVotes := body.totalVotes.getD 0
          initialized := true }
    let s2 : VoteState :=
      match body.options with
      | none => s1
      | some opts =>
        { s1 with
            options := opts.foldl (fun m o => mapSet o.id ⟨o.text, o.vote_count⟩ m) s1.options }
    let s3 : VoteState :=
      match body.existingVoters with
      | none => s2
      | some vs => { s2 with voters := vs.foldl (fun acc v => setAdd v acc) s2.voters }
    if putOk then
      ({ a with voteState := { s3 with dirty := false }, storage := some s3.serialize },
       .ok ⟨true, none, some ⟨none, some s3.totalVotes, none, none⟩⟩)
    else
      ({ a with voteState := s3 }, .error "storage put failed")

/-- `handleVote` (lines 235-298).  `putOk` is the `saveToStorage` outcome,
`auditOk` the outcome of the best-effort D1 audit insert (caught and
ignored on failure, lines 286-289). -/
def handleVote (putOk auditOk : Bool) (a : Actor) (d1 : D1State) (body : VoteRequest) :
    Actor × D1State × Except String VoteResponse :=
  if !(strTruthy body.optionId && strTruthy body.ipAddress && strTruthy body.fingerprint) then
    (a, d1, .ok ⟨false, some "Missing required fields", none⟩)
  else
    let s0 : VoteState :=
      if a.voteState.pollId == "" && strTruthy body.pollId then
        { a.voteState with pollId := body.pollId.getD "" }
      else a.voteState
    let a0 : Actor := { a with voteState := s0 }
    if s0.pollId == "" then
      (a0, d1, .ok ⟨false, some "Poll ID not set - DO not initialized", none⟩)
    else
      let voterKey := body.ipAddress.getD "" ++ ":" ++ body.fingerprint.getD ""
      if s0.voters.contains voterKey then
        (a0, d1,
         .ok ⟨false, some "You have already voted on this poll",
              some ⟨none, none, none, some true⟩⟩)
      else
        match tget (body.optionId.getD "") s0.options with
        | none => (a0, d1, .ok ⟨false, some "Option not found", none⟩)
        | some opt =>
          let newCount := opt.voteCount + 1
          let s1 : VoteState :=
            { s0 with
                options := mapSet (body.optionId.getD "") ⟨opt.text, newCount⟩ s0.options
                totalVotes := s0.totalVotes + 1
                voters := setAdd voterKey s0.voters
                dirty := true }
          if !putOk then
            ({ a with voteState := s1 }, d1, .error "storage put failed")
          else
            let a1 : Actor :=
              { a with voteState := { s1 with dirty := false }, storage := some s1.serialize }
            let a2 : Actor :=
              if a1.syncAlarm then a1
              else { a1 with syncAlarm := true, alarmScheduled := true }
            let d2 : D1State :=
              if auditOk then
                { d1 with
                    votes := d1.votes ++
                      [⟨s1.pollId, body.optionId.getD "", body.userId,
                        body.ipAddress.getD "", body.fingerprint.getD ""⟩] }
              else d1
            (a2, d2,
             .ok ⟨true, none, some ⟨some newCount, some s1.totalVotes, none, none⟩⟩)

/-- `handleGetState` (lines 303-323): pure read. -/
def handleGetState (s : VoteState) : VoteResponse :=
  if !s.initialized then
    ⟨false, some "Not initialized", none⟩
  else
    ⟨true, none,
     some ⟨none, some s.totalVotes,
           some (s.options.map fun kv => ⟨kv.1, kv.2.text, kv.2.voteCount⟩), none⟩⟩

/-- `syncToD1` (lines 128-156).  The handler first runs the single
`UPDATE polls` statement, then (if any options exist) the batch of
`UPDATE options` statements.  `pollUpdOk` and `batchOk` are the outcomes of
the two awaits; any thrown error is caught and swallowed, so a failing
batch still leaves the already-completed poll-total update applied. -/
def syncToD1 (pollUpdOk batchOk : Bool) (s : VoteState) (d1 : D1State) : D1State :=
  if !s.initialized || s.pollId == "" then d1
  else if !pollUpdOk then d1
  else
    let d2 : D1State := { d1 with pollTotals := tblSet s.pollId s.totalVotes d1.pollTotals }
    if s.options.isEmpty then d2
    else if !batchOk then d2
    else
      { d2 with
          optionCounts :=
            s.options.foldl (fun t kv => tblSet kv.1 kv.2.voteCount t) d2.optionCounts }

/-- The `alarm` handler (lines 120-123): the pending platform alarm is
consumed by firing, the in-memory flag is cleared, then `syncToD1` runs
(errors swallowed).  No re-scheduling happens on any path. -/
def alarmStep (pollUpdOk batchOk : Bool) (p : Actor × D1State) : Actor × D1State :=
  let a1 : Actor := { p.1 with syncAlarm := false, alarmScheduled := false }
  (a1, syncToD1 pollUpdOk batchOk a1.voteState p.2)

/-- Outcomes of the fallible external calls a single `fetch` dispatch may
make. -/
structure FetchEffects where
  putOk : Bool
  auditOk : Bool
  pollUpdOk : Bool
  batchOk : Bool
deriving Repr, DecidableEq

/-- All effects succeed. -/
def effOk : FetchEffects := ⟨true, true, true, true⟩

/-- The catch block of `fetch` (lines 187-193): a thrown error becomes a
500 response `{ success: false, error: message }`. -/
def respOf : Except String VoteResponse → VoteResponse
  | .ok r => r
  | .error m => ⟨false, some m, none⟩

/-- The `fetch` dispatcher (lines 161-194): switch on `body.action` with
`init`, `vote`, `getState`, `sync` cases and an `Unknown action` default. -/
def fetchDispatch (eff : FetchEffects) (a : Actor) (d1 : D1State) (body : VoteRequest) :
    Actor × D1State × VoteResponse :=
  if body.action == "init" then
    let r := handleInit eff.putOk a body
    (r.1, d1, respOf r.2)
  else if body.action == "vote" then
    let r := handleVote eff.putOk eff.auditOk a d1 body
    (r.1, r.2.1, respOf r.2.2)
  else if body.action == "getState" then
    (a, d1, handleGetState a.voteState)
  else if body.action == "sync" then
    (a, syncToD1 eff.pollUpdOk eff.batchOk a.voteState d1, ⟨true, none, none⟩)
  else
    (a, d1, ⟨false, some "Unknown action", none⟩)

/-- One dispatched request, projected to the machine state. -/
def stepReq (eff : FetchEffects) (body : VoteRequest) (p : Actor × D1State) :
    Actor × D1State :=
  let r := fetchDispatch eff p.1 p.2 body
  (r.1, r.2.1)

/-- The in-memory state a freshly constructed actor starts from
(constructor, lines 50-66) when its private storage is empty. -/
def initialVoteState : VoteState := ⟨"", [], 0, [], false, false⟩

/-- A cold actor: fresh in-memory state, no alarm, empty private storage. -/
def initialActor : Actor := ⟨initialVoteState, false, false, none⟩

/-- An empty Backing Store. -/
def emptyD1 : D1State := ⟨[], [], []⟩

/-- One observable transition of the actor system: a dispatched request
(with any effect outcomes) or a firing of the flush alarm. -/
inductive Step : Actor × D1State → Actor × D1State → Prop where
  | req (eff : FetchEffects) (body : VoteRequest) (p : Actor × D1State) :
      Step p (stepReq eff body p)
  | fire (u v : Bool) (p : Actor × D1State) :
      Step p (alarmStep u v p)

/-- Reachability from a cold actor over an arbitrary initial Backing
Store. -/
def Reach (d0 : D1State) (p : Actor × D1State) : Prop :=
  Relation.ReflTransGen Step (initialActor, d0) p

/-- The init request built by `initializeVoteEngine` in
`src/handlers/votes.ts` (lines 56-68) from the data it read out of D1:
the body carries `action`, `options`, `totalVotes` (`poll?.total_votes || 0`)
and `existingVoters`, and no `pollId` field. -/
def seedInitRequest (opts : List InitOption) (pollTotal : Option Nat)
    (voters : List String) : VoteRequest :=
  { emptyReq "init" with
      options := some opts
      totalVotes := some (pollTotal.getD 0)
      existingVoters := some voters }

/-- The init request built by the eager pre-initialization in
`handleCreatePoll` (poll-creation handler, lines 205-218): zeroed counts,
total 0, no existing voters, and again no `pollId` field. -/
def createPollInitRequest (opts : List InitOption) : VoteRequest :=
  { emptyReq "init" with
      options := some (opts.map fun o => ⟨o.id, o.text, 0⟩)
      totalVotes := some 0
      existingVoters := some [] }

/-- The inputs of one vote submission as forwarded by the vote handler. -/
structure VoteIn where
  optionId : String
  ipAddress : String
  fingerprint : String
deriving Repr, DecidableEq

/-- The vote request the bridge sends to the actor (`handlers/votes.ts`
lines 130-140: `action`, `optionId`, `ipAddress`, `fingerprint`, `userId`,
no `pollId`). -/
def voteReq (v : VoteIn) : VoteRequest :=
  { emptyReq "vote" with
      optionId := some v.optionId
      ipAddress := some v.ipAddress
      fingerprint := some v.fingerprint }

/-- The dedup key `ipAddress:fingerprint` (line 250). -/
def voterKeyOf (v : VoteIn) : String := v.ipAddress ++ ":" ++ v.fingerprint

/-- Run a sequence of vote submissions against the actor, all external
writes succeeding. -/
def runVotes (a : Actor) (d : D1State) : List VoteIn → Actor × D1State
  | [] => (a, d)
  | v :: rest =>
    let r := handleVote true true a d (voteReq v)
    runVotes r.1 r.2.1 rest

/-- An actor that was never initialized holds no options, no voters and a
zero total. -/
def UninitEmpty (a : Actor) : Prop :=
  a.voteState.initialized = false →
    a.voteState.options = [] ∧ a.voteState.voters = [] ∧ a.voteState.totalVotes = 0

/-- An initialized actor has a nonempty poll id. -/
def InitHasPoll (a : Actor) : Prop :=
  a.voteState.initialized = true → a.voteState.pollId ≠ ""

/-- The structural invariant maintained by every reachable actor state. -/
def ActorInv (a : Actor) : Prop := UninitEmpty a ∧ InitHasPoll a

/-- The counter invariant: the running total equals the sum of the
per-option counters. -/
def CountsBalanced (a : Actor) : Prop :=
  a.voteState.totalVotes = sumCounts a.voteState.options

/-- An init snapshot is internally consistent when the total it carries
equals the sum of the option counts it carries. -/
def initConsistent (body : VoteRequest) : Prop :=
  body.totalVotes.getD 0 =
    sumCounts ((body.options.getD []).foldl
      (fun m o => mapSet o.id ⟨o.text, o.vote_count⟩ m) [])

/-- Transitions restricted to internally consistent init snapshots. -/
inductive StepC : Actor × D1State → Actor × D1State → Prop where
  | req (eff : FetchEffects) (body : VoteRequest) (p : Actor × D1State)
      (hc : body.action = "init" → initConsistent body) : StepC p (stepReq eff body p)
  | fire (u v : Bool) (p : Actor × D1State) :
      StepC p (alarmStep u v p)

/-- Reachability when every init snapshot is internally consistent. -/
def ReachC (d0 : D1State) (p : Actor × D1State) : Prop :=
  Relation.ReflTransGen StepC (initialActor, d0) p

/-! ### Concrete fixtures used by counterexamples and witnesses -/

/-- An initialized two-option actor with zero counts and no voters. -/
def pollActor : Actor :=
  ⟨⟨"p", [("A", ⟨"Alpha", 0⟩), ("B", ⟨"Beta", 0⟩)], 0, [], true, false⟩, false, false,
   some ⟨"p", [("A", ⟨"Alpha", 0⟩), ("B", ⟨"Beta", 0⟩)], 0, [], true⟩⟩

/-- An initialized actor that has already recorded the voter
`1.2.3.4:fp1`. -/
def dupActor : Actor :=
  ⟨⟨"p", [("A", ⟨"Alpha", 1⟩)], 1, ["1.2.3.4:fp1"], true, false⟩, false, false,
   some ⟨"p", [("A", ⟨"Alpha", 1⟩)], 1, ["1.2.3.4:fp1"], true⟩⟩

/-- A dirty actor with one unflushed vote and a pending flush alarm. -/
def flushActor : Actor :=
  ⟨⟨"p", [("A", ⟨"Alpha", 1⟩), ("B", ⟨"Beta", 0⟩)], 1, ["1.2.3.4:fp1"], true, false⟩,
   true, true,
   some ⟨"p", [("A", ⟨"Alpha", 1⟩), ("B", ⟨"Beta", 0⟩)], 1, ["1.2.3.4:fp1"], true⟩⟩

/-- A Backing Store holding stale (zero) rows for poll `p` and options
`A`, `B`. -/
def d1Fix : D1State := ⟨[("p", 0)], [("A", 0), ("B", 0)], []⟩

/-- A concrete vote request for option `A` from voter `1.2.3.4:fp1`. -/
def voteReqA : VoteRequest := voteReq ⟨"A", "1.2.3.4", "fp1"⟩

/-- An init snapshot claiming total 5 with no options: internally
inconsistent, yet accepted by `handleInit`. -/
def badInitBody : VoteRequest :=
  { emptyReq "init" with
      pollId := some "p"
      totalVotes := some 5 }

/-! ### Helper lemmas about the container models -/

theorem tget_mapSet {α : Type} (k k1 : String) (v : α) (m : List (String × α)) :
    tget k (mapSet k1 v m) = if k1 == k then some v else tget k m := by
  induction m with
  | nil => simp [mapSet, tget]
  | cons hd tl ih =>
    obtain ⟨k2, v2⟩ := hd
    by_cases h12 : k2 = k1
    · subst h12
      by_cases hk : k2 = k
      · subst hk; simp [mapSet, tget]
      · simp [mapSet, tget, hk]
    · by_cases hk : k2 = k
      · have h1k : ¬(k1 = k) := fun h => h12 (hk.trans h.symm)
        have hk1 : ¬(k = k1) := fun h => h1k h.symm
        simp [mapSet, tget, h12, hk, h1k, hk1]
      · simp [mapSet, tget, h12, hk, ih]

theorem tget_tblSet {α : Type} (k k1 : String) (v : α) (t : List (String × α)) :
    tget k (tblSet k1 v t) =
      if k1 == k then (tget k t).map (fun _ => v) else tget k t := by
  induction t with
  | nil => by_cases hk : k1 = k <;> simp [tblSet, tget, hk]
  | cons hd tl ih =>
    obtain ⟨k2, v2⟩ := hd
    by_cases h12 : k2 = k1
    · subst h12
      by_cases hk : k2 = k
      · subst hk; simp [tblSet, tget, ih]
      · simp [tblSet, tget, hk, ih]
    · by_cases hk : k2 = k
      · have h1k : ¬(k1 = k) := fun h => h12 (hk.trans h.symm)
        have hk1 : ¬(k = k1) := fun h => h1k h.symm
        simp [tblSet, tget, h12, hk, h1k, hk1, ih]
      · simp [tblSet, tget, h12, hk, ih]

theorem tget_tblSet_isSome {α : Type} (k k1 : String) (v : α) (t : List (String × α)) :
    (tget k (tblSet k1 v t)).isSome = (tget k t).isSome := by
  rw [tget_tblSet]
  by_cases hk : k1 = k
  · simp [hk]
  · simp [hk]

theorem setAdd_not_mem (x : String) (s : List String) (h : x ∉ s) :
    setAdd x s = s ++ [x] := by
  simp [setAdd, h]

theorem mem_setAdd_self (x : String) (s : List String) : x ∈ setAdd x s := by
  by_cases h : x ∈ s
  · simp [setAdd, h]
  · simp [setAdd, h]

theorem sumCounts_cons (k : String) (v : OptionData) (m : List (String × OptionData)) :
    sumCounts ((k, v) :: m) = v.voteCount + sumCounts m := by
  simp [sumCounts]

theorem sumCounts_mapSet_succ (k t : String) (o : OptionData)
    (m : List (String × OptionData)) (h : tget k m = some o) :
    sumCounts (mapSet k ⟨t, o.voteCount + 1⟩ m) = sumCounts m + 1 := by
  induction m with
  | nil => simp [tget] at h
  | cons hd tl ih =>
    obtain ⟨k2, v2⟩ := hd
    by_cases hk : k2 = k
    · subst hk
      simp [tget] at h
      subst h
      simp [mapSet, sumCounts]
      omega
    · simp [tget, hk] at h
      simp only [mapSet, sumCounts] at *
      simp [hk, ih h]
      omega

theorem sumCounts_zero (m : List (String × OptionData))
    (h : ∀ kv ∈ m, kv.2.voteCount = 0) : sumCounts m = 0 := by
  induction m with
  | nil => simp [sumCounts]
  | cons hd tl ih =>
    rw [show hd = (hd.1, hd.2) from rfl, sumCounts_cons]
    rw [h hd (by simp), ih fun kv hkv => h kv (by simp [hkv])]

/-! ### C7 — Init idempotence after initialization -/

/-- C7: once the actor is INITIALIZED, every later `Init` call — with any
snapshot and any storage outcome — returns success carrying the current
total and leaves the entire actor state, including the persisted private
storage, unchanged (first-writer-wins). -/
theorem init_idempotent_after_initialized (putOk : Bool) (a : Actor) (body : VoteRequest)
    (h : a.voteState.initialized = true) :
    handleInit putOk a body =
      (a, .ok ⟨true, none, some ⟨none, some a.voteState.totalVotes, none, none⟩⟩) := by
  simp [handleInit, h]

theorem init_idempotent_witness :
    dupActor.voteState.initialized = true ∧
    handleInit false dupActor badInitBody =
      (dupActor, .ok ⟨true, none, some ⟨none, some 1, none, none⟩⟩) :=
  ⟨by decide, init_idempotent_after_initialized false dupActor badInitBody (by decide)⟩

/-! ### C1 — cold-start seeding / eager pre-initialization -/

/-- C1 (the code evaluated at the failing input): the init request built
by the vote-submission path's cold-start seeding and the one built by the
poll-creation eager pre-initialization both omit `pollId`, so on an
uninitialized actor `handleInit` rejects them with
`pollId is required for initialization` and the actor stays
UNINITIALIZED, whatever snapshot was read from the Backing Store. -/
theorem seeding_init_fails_missing_pollId (putOk : Bool) (a : Actor)
    (opts opts2 : List InitOption) (tot : Option Nat) (evs : List String)
    (h : a.voteState.initialized = false) :
    handleInit putOk a (seedInitRequest opts tot evs) =
      (a, .ok ⟨false, some "pollId is required for initialization", none⟩) ∧
    handleInit putOk a (createPollInitRequest opts2) =
      (a, .ok ⟨false, some "pollId is required for initialization", none⟩) := by
  constructor <;>
    simp [handleInit, h, seedInitRequest, createPollInitRequest, emptyReq, strTruthy]

theorem seeding_init_fails_witness :
    initialActor.voteState.initialized = false ∧
    handleInit true initialActor (seedInitRequest [⟨"A", "Alpha", 3⟩] (some 3) ["1.2.3.4:fp1"]) =
      (initialActor, .ok ⟨false, some "pollId is required for initialization", none⟩) ∧
    handleInit true initialActor (createPollInitRequest [⟨"A", "Alpha", 0⟩]) =
      (initialActor, .ok ⟨false, some "pollId is required for initialization", none⟩) :=
  ⟨by decide,
   seeding_init_fails_missing_pollId true initialActor [⟨"A", "Alpha", 3⟩] [⟨"A", "Alpha", 0⟩]
     (some 3) ["1.2.3.4:fp1"] (by decide)⟩

/-! ### C10 — the undocumented `sync` action and unknown actions -/

/-- C10: a `sync` request immediately runs the Backing-Store flush — a
no-op when the actor is uninitialized or has no poll id — and returns
success without changing any actor state, while any unrecognized action
yields `success = false` with error `Unknown action`. -/
theorem fetch_sync_and_unknown_action (eff : FetchEffects) (a : Actor) (d : D1State)
    (body : VoteRequest) :
    (body.action = "sync" →
      fetchDispatch eff a d body =
        (a, syncToD1 eff.pollUpdOk eff.batchOk a.voteState d, ⟨true, none, none⟩) ∧
      (a.voteState.initialized = false ∨ a.voteState.pollId = "" →
        syncToD1 eff.pollUpdOk eff.batchOk a.voteState d = d)) ∧
    (body.action ≠ "init" → body.action ≠ "vote" → body.action ≠ "getState" →
      body.action ≠ "sync" →
      fetchDispatch eff a d body = (a, d, ⟨false, some "Unknown action", none⟩)) := by
  constructor
  · intro h
    refine ⟨by simp [fetchDispatch, h], ?_⟩
    rintro (h2 | h2) <;> simp [syncToD1, h2]
  · intro h1 h2 h3 h4
    simp [fetchDispatch, h1, h2, h3, h4]

theorem fetch_sync_witness :
    (fetchDispatch effOk initialActor d1Fix (emptyReq "sync") =
      (initialActor, syncToD1 true true initialActor.voteState d1Fix, ⟨true, none, none⟩) ∧
     syncToD1 true true initialActor.voteState d1Fix = d1Fix) ∧
    fetchDispatch effOk initialActor d1Fix (emptyReq "bogus") =
      (initialActor, d1Fix, ⟨false, some "Unknown action", none⟩) :=
  ⟨((fetch_sync_and_unknown_action effOk initialActor d1Fix (emptyReq "sync")).1 rfl).imp
      id (fun h => h (Or.inl (by decide))),
   (fetch_sync_and_unknown_action effOk initialActor d1Fix (emptyReq "bogus")).2
     (by decide) (by decide) (by decide) (by decide)⟩

/-! ### C4 — duplicate vote declined -/

/-- C4 amended: a Vote whose voter key is already in the guard set is
declined before the option lookup: the call returns AlreadyVoted
(`success = false`, `data.alreadyVoted = true`) but WITHOUT the current
counts — all count fields of the payload are absent — and the actor, its
private storage, and the Backing Store are completely unchanged. -/
theorem already_voted_declined (putOk auditOk : Bool) (a : Actor) (d : D1State)
    (oid ip fp : String) (pid uid : Option String)
    (hoid : oid ≠ "") (hip : ip ≠ "") (hfp : fp ≠ "")
    (hpoll : a.voteState.pollId ≠ "")
    (hdup : ip ++ ":" ++ fp ∈ a.voteState.voters) :
    handleVote putOk auditOk a d
        ⟨"vote", pid, some oid, some ip, some fp, uid, none, none, none⟩ =
      (a, d, .ok ⟨false, some "You have already voted on this poll",
                  some ⟨none, none, none, some true⟩⟩) := by
  simp [handleVote, strTruthy, hoid, hip, hfp, hpoll, hdup]

theorem already_voted_witness :
    (dupActor.voteState.pollId ≠ "" ∧
     "1.2.3.4:fp1" ∈ dupActor.voteState.voters) ∧
    handleVote true true dupActor d1Fix
        ⟨"vote", none, some "A", some "1.2.3.4", some "fp1", none, none, none, none⟩ =
      (dupActor, d1Fix, .ok ⟨false, some "You have already voted on this poll",
                             some ⟨none, none, none, some true⟩⟩) :=
  ⟨⟨by decide, by decide⟩,
   already_voted_declined true true dupActor d1Fix "A" "1.2.3.4" "fp1" none none
     (by decide) (by decide) (by decide) (by decide) (by decide)⟩

/-- C4 counterexample: the AlreadyVoted response does not carry the
current counts — every count field of its payload is `none` — although
the actor's live total is 1, so the claim that it "carries the current
counts" is false on the code. -/
theorem already_voted_counterexample :
    (handleVote true true dupActor d1Fix voteReqA).2.2 =
      .ok ⟨false, some "You have already voted on this poll",
           some ⟨none, none, none, some true⟩⟩ ∧
    dupActor.voteState.totalVotes = 1 := by
  decide

/-! ### C2 — storage failure on the write-ahead path -/

/-- C2 amended: if the synchronous durable write inside a Vote call
fails, the call fails and the private durable storage and Backing Store
are unchanged — but the in-memory mutation IS retained: the option count,
`totalVotes` and the guard set keep the increment (and `dirty` stays
`true`), so a retry of the whole vote is declined as AlreadyVoted instead
of succeeding. -/
theorem vote_storage_failure_keeps_memory_mutation (auditOk : Bool) (a : Actor)
    (d : D1State) (oid ip fp : String) (pid uid : Option String) (opt : OptionData)
    (hoid : oid ≠ "") (hip : ip ≠ "") (hfp : fp ≠ "")
    (hpoll : a.voteState.pollId ≠ "")
    (hnew : ip ++ ":" ++ fp ∉ a.voteState.voters)
    (hopt : tget oid a.voteState.options = some opt) :
    handleVote false auditOk a d
        ⟨"vote", pid, some oid, some ip, some fp, uid, none, none, none⟩ =
      ({ a with voteState :=
          { a.voteState with
              options := mapSet oid ⟨opt.text, opt.voteCount + 1⟩ a.voteState.options
              totalVotes := a.voteState.totalVotes + 1
              voters := a.voteState.voters ++ [ip ++ ":" ++ fp]
              dirty := true } },
       d, .error "storage put failed") := by
  simp [handleVote, strTruthy, hoid, hip, hfp, hpoll, hnew, hopt, setAdd_not_mem]

theorem vote_storage_failure_witness :
    (pollActor.voteState.pollId ≠ "" ∧
     "1.2.3.4:fp1" ∉ pollActor.voteState.voters ∧
     tget "A" pollActor.voteState.options = some ⟨"Alpha", 0⟩) ∧
    handleVote false true pollActor d1Fix
        ⟨"vote", none, some "A", some "1.2.3.4", some "fp1", none, none, none, none⟩ =
      ({ pollActor with voteState :=
          { pollActor.voteState with
              options := mapSet "A" ⟨"Alpha", 0 + 1⟩ pollActor.voteState.options
              totalVotes := pollActor.voteState.totalVotes + 1
              voters := pollActor.voteState.voters ++ ["1.2.3.4:fp1"]
              dirty := true } },
       d1Fix, .error "storage put failed") :=
  ⟨⟨by decide, by decide, by decide⟩,
   vote_storage_failure_keeps_memory_mutation true pollActor d1Fix "A" "1.2.3.4" "fp1"
     none none ⟨"Alpha", 0⟩ (by decide) (by decide) (by decide) (by decide) (by decide)
     (by decide)⟩

/-- C2 counterexample: with the durable write failing, the Vote call
fails but the actor's counters are NOT "exactly as they were before the
call": the total moves from 0 to 1, the voter key is retained in the
guard set, and a retry of the whole vote is declined as AlreadyVoted. -/
theorem vote_storage_failure_counterexample :
    (handleVote false true pollActor d1Fix voteReqA).2.2 = .error "storage put failed" ∧
    pollActor.voteState.totalVotes = 0 ∧
    (handleVote false true pollActor d1Fix voteReqA).1.voteState.totalVotes = 1 ∧
    "1.2.3.4:fp1" ∈ (handleVote false true pollActor d1Fix voteReqA).1.voteState.voters ∧
    (handleVote true true
        (handleVote false true pollActor d1Fix voteReqA).1 d1Fix voteReqA).2.2 =
      .ok ⟨false, some "You have already voted on this poll",
           some ⟨none, none, none, some true⟩⟩ := by
  decide

/-! ### C3 — flush failure handling -/

/-- C3 amended: when the deferred flush's Backing-Store write fails, the
actor's in-memory vote state and its private durable storage are
unchanged and the failure is swallowed: the `syncAlarm` flag was cleared
on entry and NO future flush is re-scheduled, so the pending
reconciliation is dropped until a later mutation schedules a new flush;
if the very first statement fails the Backing Store is untouched as
well. -/
theorem flush_failure_state_unchanged (u v : Bool) (a : Actor) (d : D1State)
    (hfail : u = false ∨ v = false) :
    (alarmStep u v (a, d)).1.voteState = a.voteState ∧
    (alarmStep u v (a, d)).1.storage = a.storage ∧
    (alarmStep u v (a, d)).1.syncAlarm = false ∧
    (alarmStep u v (a, d)).1.alarmScheduled = false ∧
    (u = false → (alarmStep u v (a, d)).2 = d) := by
  refine ⟨rfl, rfl, rfl, rfl, ?_⟩
  intro hu
  subst hu
  simp [alarmStep, syncToD1]

theorem flush_failure_witness :
    (false = false ∨ false = false) ∧
    ((alarmStep false false (flushActor, d1Fix)).1.voteState = flushActor.voteState ∧
     (alarmStep false false (flushActor, d1Fix)).1.storage = flushActor.storage ∧
     (alarmStep false false (flushActor, d1Fix)).1.syncAlarm = false ∧
     (alarmStep false false (flushActor, d1Fix)).1.alarmScheduled = false ∧
     (false = false → (alarmStep false false (flushActor, d1Fix)).2 = d1Fix)) :=
  ⟨Or.inl rfl, flush_failure_state_unchanged false false flushActor d1Fix (Or.inl rfl)⟩

/-- C3 counterexample: after a failed flush on a dirty actor with a
pending alarm, no future flush is scheduled at all — both the in-memory
flag and the platform alarm are clear and the Backing Store is untouched
— contradicting the claim that exactly one future flush is
re-scheduled. -/
theorem flush_failure_counterexample :
    flushActor.alarmScheduled = true ∧
    (alarmStep false false (flushActor, d1Fix)).1.alarmScheduled = false ∧
    (alarmStep false false (flushActor, d1Fix)).1.syncAlarm = false ∧
    (alarmStep false false (flushActor, d1Fix)).2 = d1Fix := by
  decide

/-! ### C8 — what the flush writes -/

theorem tget_flushFold_not_mem (k : String) (opts : List (String × OptionData))
    (tbl : List (String × Nat)) (h : k ∉ opts.map Prod.fst) :
    tget k (opts.foldl (fun t kv => tblSet kv.1 kv.2.voteCount t) tbl) = tget k tbl := by
  induction opts generalizing tbl with
  | nil => rfl
  | cons hd tl ih =>
    have hne : ¬(hd.1 = k) := by
      intro he
      exact h (by simp [he])
    rw [List.foldl_cons, ih _ (fun hm => h (by simp [hm]))]
    rw [tget_tblSet]
    simp [hne]

theorem flush_fold_updates (opts : List (String × OptionData)) (tbl : List (String × Nat))
    (hnd : (opts.map Prod.fst).Nodup)
    (hrows : ∀ kv ∈ opts, (tget kv.1 tbl).isSome = true) :
    ∀ kv ∈ opts,
      tget kv.1 (opts.foldl (fun t kv2 => tblSet kv2.1 kv2.2.voteCount t) tbl) =
        some kv.2.voteCount := by
  induction opts generalizing tbl with
  | nil => intro kv h; simp at h
  | cons hd tl ih =>
    intro kv hkv
    have hnd2 : hd.1 ∉ tl.map Prod.fst ∧ (tl.map Prod.fst).Nodup := by
      rw [List.map_cons, List.nodup_cons] at hnd
      exact hnd
    rw [List.foldl_cons]
    rcases List.mem_cons.mp hkv with h | h
    · subst h
      rw [tget_flushFold_not_mem _ _ _ hnd2.1, tget_tblSet]
      obtain ⟨n, hn⟩ := Option.isSome_iff_exists.mp (hrows kv (by simp))
      simp [hn]
    · exact ih (tblSet hd.1 hd.2.voteCount tbl) hnd2.2
        (fun kv2 hkv2 => by
          rw [tget_tblSet_isSome]
          exact hrows kv2 (by simp [hkv2]))
        kv h

/-- C8 amended: when the flush timer fires and both Backing-Store writes
succeed, the `syncAlarm` flag is cleared first and the store is brought
in line with the actor — the poll's total row and every option row
present in the store receive the actor's current counter values, and the
audit log is untouched.  The total and the option rows are however
written by two separate statements, not one atomic multi-statement batch
(the counterexample exhibits the first landing without the second). -/
theorem flush_success_updates_store (a : Actor) (d : D1State)
    (hinit : a.voteState.initialized = true)
    (hpoll : a.voteState.pollId ≠ "")
    (hnd : (a.voteState.options.map Prod.fst).Nodup)
    (hprow : (tget a.voteState.pollId d.pollTotals).isSome = true)
    (hrows : ∀ kv ∈ a.voteState.options, (tget kv.1 d.optionCounts).isSome = true) :
    (alarmStep true true (a, d)).1.syncAlarm = false ∧
    (alarmStep true true (a, d)).1.alarmScheduled = false ∧
    (alarmStep true true (a, d)).1.voteState = a.voteState ∧
    tget a.voteState.pollId (alarmStep true true (a, d)).2.pollTotals =
      some a.voteState.totalVotes ∧
    (∀ kv ∈ a.voteState.options,
      tget kv.1 (alarmStep true true (a, d)).2.optionCounts = some kv.2.voteCount) ∧
    (alarmStep true true (a, d)).2.votes = d.votes := by
  obtain ⟨n, hn⟩ := Option.isSome_iff_exists.mp hprow
  have htot : tget a.voteState.pollId
      (tblSet a.voteState.pollId a.voteState.totalVotes d.pollTotals) =
      some a.voteState.totalVotes := by
    rw [tget_tblSet]
    simp [hn]
  by_cases hemp : a.voteState.options.isEmpty
  · have hnil : a.voteState.options = [] := by simpa [List.isEmpty_iff] using hemp
    refine ⟨rfl, rfl, rfl, ?_, ?_, ?_⟩
    · simpa [alarmStep, syncToD1, hinit, hpoll, hemp] using htot
    · intro kv hkv
      rw [hnil] at hkv
      simp at hkv
    · simp [alarmStep, syncToD1, hinit, hpoll, hemp]
  · refine ⟨rfl, rfl, rfl, ?_, ?_, ?_⟩
    · simpa [alarmStep, syncToD1, hinit, hpoll, hemp] using htot
    · intro kv hkv
      simpa [alarmStep, syncToD1, hinit, hpoll, hemp] using
        flush_fold_updates a.voteState.options d.optionCounts hnd hrows kv hkv
    · simp [alarmStep, syncToD1, hinit, hpoll, hemp]

theorem flush_success_witness :
    (flushActor.voteState.initialized = true ∧
     flushActor.voteState.pollId ≠ "" ∧
     (flushActor.voteState.options.map Prod.fst).Nodup ∧
     (tget flushActor.voteState.pollId d1Fix.pollTotals).isSome = true) ∧
    ((alarmStep true true (flushActor, d1Fix)).1.syncAlarm = false ∧
     (alarmStep true true (flushActor, d1Fix)).1.alarmScheduled = false ∧
     (alarmStep true true (flushActor, d1Fix)).1.voteState = flushActor.voteState ∧
     tget flushActor.voteState.pollId (alarmStep true true (flushActor, d1Fix)).2.pollTotals =
       some flushActor.voteState.totalVotes ∧
     (∀ kv ∈ flushActor.voteState.options,
       tget kv.1 (alarmStep true true (flushActor, d1Fix)).2.optionCounts =
         some kv.2.voteCount) ∧
     (alarmStep true true (flushActor, d1Fix)).2.votes = d1Fix.votes) :=
  ⟨⟨by decide, by decide, by decide, by decide⟩,
   flush_success_updates_store flushActor d1Fix (by decide) (by decide) (by decide)
     (by decide) (by decide)⟩

/-- C8 counterexample: the poll's total is written by a separate earlier
statement than the option batch, so a failure in between leaves the
Backing Store with the new total but the stale option counts — the claim
that total and option rows are updated in a single atomic
multi-statement write is false on the code. -/
theorem flush_not_atomic_counterexample :
    flushActor.voteState.totalVotes = 1 ∧
    tget "A" flushActor.voteState.options = some ⟨"Alpha", 1⟩ ∧
    (alarmStep true false (flushActor, d1Fix)).2.pollTotals = [("p", 1)] ∧
    (alarmStep true false (flushActor, d1Fix)).2.optionCounts = [("A", 0), ("B", 0)] := by
  decide

/-! ### Behavior lemmas for `handleVote` -/

/-- On an actor with no options and no voters (every uninitialized
reachable state), a Vote call never succeeds and changes nothing except
possibly adopting the request's `pollId`. -/
theorem handleVote_empty (putOk auditOk : Bool) (a : Actor) (d : D1State)
    (body : VoteRequest)
    (hopts : a.voteState.options = []) (hvot : a.voteState.voters = []) :
    ((handleVote putOk auditOk a d body).1.voteState.options = [] ∧
     (handleVote putOk auditOk a d body).1.voteState.voters = [] ∧
     (handleVote putOk auditOk a d body).1.voteState.totalVotes = a.voteState.totalVotes ∧
     (handleVote putOk auditOk a d body).1.voteState.initialized = a.voteState.initialized ∧
     (handleVote putOk auditOk a d body).1.storage = a.storage ∧
     (handleVote putOk auditOk a d body).2.1 = d) ∧
    (∀ resp, (handleVote putOk auditOk a d body).2.2 = .ok resp → resp.success = false) ∧
    ((handleVote putOk auditOk a d body).1.voteState.pollId = a.voteState.pollId ∨
     (a.voteState.pollId = "" ∧ strTruthy body.pollId = true ∧
      (handleVote putOk auditOk a d body).1.voteState.pollId = body.pollId.getD "")) := by
  unfold handleVote
  split_ifs with h1 h2 h3 <;> simp_all [tget, strTruthy] <;>
    (try split_ifs) <;> simp_all

/-- `handleVote` never changes the `initialized` flag, and changes
`pollId` only when it was empty. -/
theorem handleVote_initialized_pollId (putOk auditOk : Bool) (a : Actor) (d : D1State)
    (body : VoteRequest) :
    (handleVote putOk auditOk a d body).1.voteState.initialized = a.voteState.initialized ∧
    ((handleVote putOk auditOk a d body).1.voteState.pollId = a.voteState.pollId ∨
      a.voteState.pollId = "") := by
  unfold handleVote
  dsimp only
  repeat' (first | split_ifs | split)
  all_goals simp_all

/-- `handleVote` preserves `totalVotes = sumCounts options`. -/
theorem handleVote_balance (putOk auditOk : Bool) (a : Actor) (d : D1State)
    (body : VoteRequest) (hbal : a.voteState.totalVotes = sumCounts a.voteState.options) :
    (handleVote putOk auditOk a d body).1.voteState.totalVotes =
      sumCounts (handleVote putOk auditOk a d body).1.voteState.options := by
  unfold handleVote
  dsimp only
  repeat' (first | split_ifs | split)
  all_goals simp_all [sumCounts_mapSet_succ]

/-! ### The structural invariant of reachable actor states -/

theorem strTruthy_getD (o : Option String) (h : strTruthy o = true) : o.getD "" ≠ "" := by
  cases o with
  | none => simp [strTruthy] at h
  | some s => simpa [strTruthy] using h

theorem handleInit_inv (putOk : Bool) (a : Actor) (body : VoteRequest)
    (h : ActorInv a) : ActorInv (handleInit putOk a body).1 := by
  obtain ⟨h1, h2⟩ := h
  unfold ActorInv UninitEmpty InitHasPoll at *
  unfold handleInit
  dsimp only
  repeat' (first | split_ifs | split)
  all_goals simp_all [strTruthy_getD]

theorem handleInit_balance (putOk : Bool) (a : Actor) (body : VoteRequest)
    (hinv : ActorInv a) (hbal : CountsBalanced a) (hc : initConsistent body) :
    CountsBalanced (handleInit putOk a body).1 := by
  obtain ⟨h1, h2⟩ := hinv
  unfold UninitEmpty at h1
  unfold CountsBalanced at *
  unfold initConsistent at hc
  unfold handleInit
  dsimp only
  repeat' (first | split_ifs | split)
  all_goals simp_all [sumCounts]

theorem handleVote_inv (putOk auditOk : Bool) (a : Actor) (d : D1State)
    (body : VoteRequest) (h : ActorInv a) :
    ActorInv (handleVote putOk auditOk a d body).1 := by
  obtain ⟨h1, h2⟩ := h
  obtain ⟨hini, hpid⟩ := handleVote_initialized_pollId putOk auditOk a d body
  constructor
  · intro hx
    rw [hini] at hx
    obtain ⟨ho, hv, ht⟩ := h1 hx
    obtain ⟨⟨ho2, hv2, ht2, _, _, _⟩, _, _⟩ := handleVote_empty putOk auditOk a d body ho hv
    exact ⟨ho2, hv2, ht2.trans ht⟩
  · intro hx
    rw [hini] at hx
    have hne := h2 hx
    rcases hpid with hp | hp
    · rw [hp]; exact hne
    · exact absurd hp hne

theorem stepReq_inv (eff : FetchEffects) (body : VoteRequest) (p : Actor × D1State)
    (h : ActorInv p.1) : ActorInv (stepReq eff body p).1 := by
  unfold stepReq fetchDispatch
  dsimp only
  split_ifs
  · exact handleInit_inv eff.putOk p.1 body h
  · exact handleVote_inv eff.putOk eff.auditOk p.1 p.2 body h
  · exact h
  · exact h
  · exact h

theorem reach_actorInv (d0 : D1State) (p : Actor × D1State) (h : Reach d0 p) :
    ActorInv p.1 := by
  induction h with
  | refl =>
    refine ⟨?_, ?_⟩
    · intro hx
      exact ⟨rfl, rfl, rfl⟩
    · intro hx
      simp [initialActor, initialVoteState] at hx
  | tail hab hbc ih =>
    cases hbc with
    | req eff body p => exact stepReq_inv eff body _ ih
    | fire u v p => exact ih

theorem handleVote_empty_resp (putOk auditOk : Bool) (a : Actor) (d : D1State)
    (body : VoteRequest)
    (hopts : a.voteState.options = [])
    (hfields : (strTruthy body.optionId && strTruthy body.ipAddress &&
      strTruthy body.fingerprint) = true)
    (hvot : a.voteState.voters = []) :
    ((a.voteState.pollId ≠ "" ∨ strTruthy body.pollId = true) →
      (handleVote putOk auditOk a d body).2.2 =
        .ok ⟨false, some "Option not found", none⟩) ∧
    (a.voteState.pollId = "" → strTruthy body.pollId = false →
      (handleVote putOk auditOk a d body).2.2 =
        .ok ⟨false, some "Poll ID not set - DO not initialized", none⟩) := by
  unfold handleVote
  dsimp only
  repeat' (first | split_ifs | split)
  all_goals constructor
  all_goals intro hx
  all_goals simp_all [tget, strTruthy_getD]

theorem stepC_inv_balance (p q : Actor × D1State)
    (hs : StepC p q) (hinv : ActorInv p.1) (hbal : CountsBalanced p.1) :
    ActorInv q.1 ∧ CountsBalanced q.1 := by
  cases hs with
  | req eff body p2 hc =>
    refine ⟨stepReq_inv eff body _ hinv, ?_⟩
    unfold stepReq fetchDispatch
    dsimp only
    split_ifs with h1 h2 h3 h4
    · exact handleInit_balance eff.putOk _ body hinv hbal (hc (by simpa using h1))
    · exact handleVote_balance eff.putOk eff.auditOk _ _ body hbal
    · exact hbal
    · exact hbal
    · exact hbal
  | fire u v p2 => exact ⟨hinv, hbal⟩

theorem reachC_inv_balance (d0 : D1State) (p : Actor × D1State) (h : ReachC d0 p) :
    ActorInv p.1 ∧ CountsBalanced p.1 := by
  induction h with
  | refl =>
    refine ⟨⟨?_, ?_⟩, ?_⟩
    · intro hx
      exact ⟨rfl, rfl, rfl⟩
    · intro hx
      simp [initialActor, initialVoteState] at hx
    · rfl
  | tail hab hbc ih => exact stepC_inv_balance _ _ hbc ih.1 ih.2

/-! ### C6 — the totals invariant -/

/-- C6 amended: in every state of the actor reachable by any sequence of
Init, Vote, GetState, sync and flush operations in which every Init
snapshot is internally consistent (its total equals the sum of the
option counts it carries), `totalVotes` equals the sum of the per-option
vote counts.  Each operation applies its count mutations atomically
between requests, so no intermediate state is observable.  Without the
consistency proviso the claim fails: Init adopts any snapshot verbatim
(see the counterexample). -/
theorem totals_match_sum (d0 : D1State) (a : Actor) (d : D1State)
    (h : ReachC d0 (a, d)) :
    a.voteState.totalVotes = sumCounts a.voteState.options :=
  (reachC_inv_balance d0 (a, d) h).2

theorem totals_witness :
    ReachC emptyD1 (initialActor, emptyD1) ∧
    initialActor.voteState.totalVotes = sumCounts initialActor.voteState.options :=
  ⟨Relation.ReflTransGen.refl,
   totals_match_sum emptyD1 initialActor emptyD1 Relation.ReflTransGen.refl⟩

/-- C6 counterexample: a single Init carrying total 5 and no options is
accepted, reaching a state with `totalVotes = 5` but option sum 0, so
the claim without the consistency proviso is false on the code. -/
theorem totals_counterexample :
    Reach emptyD1 (stepReq effOk badInitBody (initialActor, emptyD1)) ∧
    (stepReq effOk badInitBody (initialActor, emptyD1)).1.voteState.totalVotes = 5 ∧
    sumCounts (stepReq effOk badInitBody (initialActor, emptyD1)).1.voteState.options = 0 :=
  ⟨Relation.ReflTransGen.single (Step.req effOk badInitBody (initialActor, emptyD1)),
   by decide, by decide⟩

/-! ### C5 — Vote on an uninitialized actor -/

/-- C5 amended: a Vote call on an uninitialized (reachable) actor never
succeeds and leaves options, voters, total, storage and the Backing
Store unchanged — but the guard is the `pollId` field, not the
`initialized` flag: with well-formed fields and a poll id available
(from state or request) the call fails `Option not found` (the request's
`pollId` being adopted into state), and the `Poll ID not set` error
appears only when no poll id is available at all. -/
theorem vote_uninitialized_fails (d0 : D1State) (a : Actor) (d : D1State)
    (putOk auditOk : Bool) (body : VoteRequest)
    (hreach : Reach d0 (a, d)) (huninit : a.voteState.initialized = false) :
    (∀ resp, (handleVote putOk auditOk a d body).2.2 = .ok resp → resp.success = false) ∧
    (handleVote putOk auditOk a d body).1.voteState.options = [] ∧
    (handleVote putOk auditOk a d body).1.voteState.voters = [] ∧
    (handleVote putOk auditOk a d body).1.voteState.totalVotes = 0 ∧
    (handleVote putOk auditOk a d body).1.voteState.initialized = false ∧
    (handleVote putOk auditOk a d body).1.storage = a.storage ∧
    (handleVote putOk auditOk a d body).2.1 = d ∧
    ((strTruthy body.optionId && strTruthy body.ipAddress &&
        strTruthy body.fingerprint) = true →
      (a.voteState.pollId ≠ "" ∨ strTruthy body.pollId = true) →
      (handleVote putOk auditOk a d body).2.2 =
        .ok ⟨false, some "Option not found", none⟩) ∧
    ((strTruthy body.optionId && strTruthy body.ipAddress &&
        strTruthy body.fingerprint) = true →
      a.voteState.pollId = "" → strTruthy body.pollId = false →
      (handleVote putOk auditOk a d body).2.2 =
        .ok ⟨false, some "Poll ID not set - DO not initialized", none⟩) := by
  obtain ⟨hue, _⟩ := reach_actorInv d0 (a, d) hreach
  obtain ⟨ho, hv, ht⟩ := hue huninit
  obtain ⟨⟨ho2, hv2, ht2, hi2, hs2, hd2⟩, hresp, _⟩ :=
    handleVote_empty putOk auditOk a d body ho hv
  refine ⟨hresp, ho2, hv2, ht2.trans ht, hi2.trans huninit, hs2, hd2, ?_, ?_⟩
  · intro hf hp
    exact ((handleVote_empty_resp putOk auditOk a d body ho hf hv).1 hp)
  · intro hf hp hnp
    exact ((handleVote_empty_resp putOk auditOk a d body ho hf hv).2 hp hnp)

theorem vote_uninitialized_witness :
    (Reach emptyD1 (initialActor, emptyD1) ∧
     initialActor.voteState.initialized = false) ∧
    ((handleVote true true initialActor emptyD1 voteReqA).1.voteState.options = [] ∧
     (handleVote true true initialActor emptyD1 voteReqA).1.voteState.totalVotes = 0 ∧
     (handleVote true true initialActor emptyD1 voteReqA).2.2 =
       .ok ⟨false, some "Poll ID not set - DO not initialized", none⟩) := by
  refine ⟨⟨Relation.ReflTransGen.refl, by decide⟩, ?_⟩
  obtain ⟨_, ho, _, ht, _, _, _, _, hcls⟩ :=
    vote_uninitialized_fails emptyD1 initialActor emptyD1 true true voteReqA
      Relation.ReflTransGen.refl (by decide)
  exact ⟨ho, ht, hcls (by decide) (by decide) (by decide)⟩

/-- C5 counterexample: on the fresh uninitialized actor, a well-formed
Vote request carrying a `pollId` is NOT rejected with the
not-initialized error: it fails `Option not found`, and the actor's
`pollId` is mutated from `""` to `"p"` — contradicting both the claimed
error and the claimed absence of mutation. -/
theorem vote_uninitialized_counterexample :
    initialActor.voteState.initialized = false ∧
    initialActor.voteState.pollId = "" ∧
    (handleVote true true initialActor emptyD1
        { voteReqA with pollId := some "p" }).2.2 =
      .ok ⟨false, some "Option not found", none⟩ ∧
    (handleVote true true initialActor emptyD1
        { voteReqA with pollId := some "p" }).1.voteState.pollId = "p" := by
  decide

/-! ### C9 — N distinct voters -/

/-- A fresh, well-formed vote on a valid option succeeds and increments
the option count, the total and the guard set by exactly one. -/
theorem handleVote_success (auditOk : Bool) (a : Actor) (d : D1State) (v : VoteIn)
    (opt : OptionData)
    (h1 : v.optionId ≠ "") (h2 : v.ipAddress ≠ "") (h3 : v.fingerprint ≠ "")
    (hpoll : a.voteState.pollId ≠ "")
    (hnew : voterKeyOf v ∉ a.voteState.voters)
    (hopt : tget v.optionId a.voteState.options = some opt) :
    (handleVote true auditOk a d (voteReq v)).1.voteState =
      { a.voteState with
          options := mapSet v.optionId ⟨opt.text, opt.voteCount + 1⟩ a.voteState.options
          totalVotes := a.voteState.totalVotes + 1
          voters := a.voteState.voters ++ [voterKeyOf v]
          dirty := false } ∧
    (handleVote true auditOk a d (voteReq v)).2.2 =
      .ok ⟨true, none,
           some ⟨some (opt.voteCount + 1), some (a.voteState.totalVotes + 1), none, none⟩⟩ := by
  unfold handleVote voteReq emptyReq
  dsimp only
  repeat' split_ifs
  all_goals simp_all [strTruthy, voterKeyOf, setAdd_not_mem, hopt]

theorem tget_isSome_mapSet {α : Type} (k k1 : String) (v : α) (m : List (String × α))
    (h : (tget k m).isSome = true) : (tget k (mapSet k1 v m)).isSome = true := by
  rw [tget_mapSet]
  by_cases hk : k1 = k
  · simp [hk]
  · simp [hk, h]

/-- Folding a list of fresh distinct votes over the actor adds one vote
per entry to the total, to the option-count sum, and to the guard set. -/
theorem runVotes_spec (vs : List VoteIn) (a : Actor) (d : D1State)
    (hpoll : a.voteState.pollId ≠ "")
    (hfields : ∀ v ∈ vs, v.optionId ≠ "" ∧ v.ipAddress ≠ "" ∧ v.fingerprint ≠ "")
    (hopts : ∀ v ∈ vs, (tget v.optionId a.voteState.options).isSome = true)
    (hnd : (vs.map voterKeyOf).Nodup)
    (hfresh : ∀ v ∈ vs, voterKeyOf v ∉ a.voteState.voters) :
    (runVotes a d vs).1.voteState.totalVotes = a.voteState.totalVotes + vs.length ∧
    sumCounts (runVotes a d vs).1.voteState.options =
      sumCounts a.voteState.options + vs.length ∧
    (runVotes a d vs).1.voteState.voters = a.voteState.voters ++ vs.map voterKeyOf := by
  induction vs generalizing a d with
  | nil => simp [runVotes]
  | cons v rest ih =>
    obtain ⟨h1, h2, h3⟩ := hfields v (by simp)
    obtain ⟨opt, hopt⟩ := Option.isSome_iff_exists.mp (hopts v (by simp))
    have hfr : voterKeyOf v ∉ a.voteState.voters := hfresh v (by simp)
    obtain ⟨hstate, _⟩ :=
      handleVote_success true a d v opt h1 h2 h3 hpoll hfr hopt
    have hnd2 : voterKeyOf v ∉ rest.map voterKeyOf ∧ (rest.map voterKeyOf).Nodup := by
      rw [List.map_cons, List.nodup_cons] at hnd
      exact hnd
    have hrun : runVotes a d (v :: rest) =
        runVotes (handleVote true true a d (voteReq v)).1
          (handleVote true true a d (voteReq v)).2.1 rest := rfl
    rw [hrun]
    obtain ⟨ihT, ihS, ihV⟩ := ih (handleVote true true a d (voteReq v)).1
      (handleVote true true a d (voteReq v)).2.1
      (by rw [hstate]; exact hpoll)
      (fun w hw => hfields w (by simp [hw]))
      (fun w hw => by
        rw [hstate]
        exact tget_isSome_mapSet _ _ _ _ (hopts w (by simp [hw])))
      hnd2.2
      (fun w hw => by
        rw [hstate]
        intro hmem
        rcases List.mem_append.mp hmem with hm | hm
        · exact hfresh w (by simp [hw]) hm
        · rcases List.mem_singleton.mp hm with he
          exact hnd2.1 (he ▸ List.mem_map_of_mem voterKeyOf hw))
    refine ⟨?_, ?_, ?_⟩
    · rw [ihT, hstate]
      simp
      omega
    · rw [ihS, hstate]
      dsimp only
      rw [sumCounts_mapSet_succ v.optionId opt.text opt a.voteState.options hopt]
      simp
      omega
    · rw [ihV, hstate]
      simp

/-- C9: for any sequence of pairwise-distinct voter keys, each casting
one well-formed vote for a valid option of an actor initialized with all
option counts zero, total zero and an empty guard set: after all votes
complete, the sum of the option counts and `totalVotes` both equal N and
the guard set has exactly N members. -/
theorem n_distinct_voters_tally (vs : List VoteIn) (a : Actor) (d : D1State)
    (hinit : a.voteState.initialized = true)
    (hpoll : a.voteState.pollId ≠ "")
    (hzero : ∀ kv ∈ a.voteState.options, kv.2.voteCount = 0)
    (htot : a.voteState.totalVotes = 0)
    (hvot : a.voteState.voters = [])
    (hfields : ∀ v ∈ vs, v.optionId ≠ "" ∧ v.ipAddress ≠ "" ∧ v.fingerprint ≠ "")
    (hopts : ∀ v ∈ vs, (tget v.optionId a.voteState.options).isSome = true)
    (hnd : (vs.map voterKeyOf).Nodup) :
    sumCounts (runVotes a d vs).1.voteState.options = vs.length ∧
    (runVotes a d vs).1.voteState.totalVotes = vs.length ∧
    (runVotes a d vs).1.voteState.voters.length = vs.length := by
  obtain ⟨hT, hS, hV⟩ := runVotes_spec vs a d hpoll hfields hopts hnd
    (fun v hv => by rw [hvot]; simp)
  refine ⟨?_, ?_, ?_⟩
  · rw [hS, sumCounts_zero _ hzero]
    omega
  · rw [hT, htot]
    omega
  · rw [hV, hvot]
    simp

theorem n_distinct_voters_witness :
    (pollActor.voteState.initialized = true ∧
     pollActor.voteState.pollId ≠ "" ∧
     (([⟨"A", "1.1.1.1", "f1"⟩, ⟨"B", "2.2.2.2", "f2"⟩] :
        List VoteIn).map voterKeyOf).Nodup) ∧
    (sumCounts (runVotes pollActor emptyD1
        [⟨"A", "1.1.1.1", "f1"⟩, ⟨"B", "2.2.2.2", "f2"⟩]).1.voteState.options = 2 ∧
     (runVotes pollActor emptyD1
        [⟨"A", "1.1.1.1", "f1"⟩, ⟨"B", "2.2.2.2", "f2"⟩]).1.voteState.totalVotes = 2 ∧
     (runVotes pollActor emptyD1
        [⟨"A", "1.1.1.1", "f1"⟩, ⟨"B", "2.2.2.2", "f2"⟩]).1.voteState.voters.length = 2) :=
  ⟨⟨by decide, by decide, by decide⟩,
   n_distinct_voters_tally [⟨"A", "1.1.1.1", "f1"⟩, ⟨"B", "2.2.2.2", "f2"⟩]
     pollActor emptyD1 (by decide) (by decide) (by decide) (by decide) (by decide)
     (by decide) (by decide) (by decide)⟩
